import Mathlib

/-!
# Corporate license seat-allocation and enrollment-synchronization: a verification development

Shallow embedding of the corporate bulk-licensing subsystem of the FastAPI/MongoDB
e-learning backend:

* `app/db/corporate_repository.py` — `CorporateRepository` (accounts, licenses,
  trainees, assignments collections),
* `app/db/enrollment_repository.py` — `EnrollmentRepository`,
* `app/db/repository.py` — `UserRepository`,
* `app/api/v1/routers/corporate.py` — register / invite / assign / unassign /
  remove-trainee routes,
* `app/api/v1/routers/payments.py` — the checkout-session-completed webhook handler.

Each MongoDB collection is modelled as a Lean list of documents; `find_one` is
`List.find?` (first match in collection order), `update_one` updates the first
matching document, `delete_one` deletes the first matching document.  `insert_one`
can raise (duplicate key, I/O failure); every repository wrapper catches exceptions
and returns a boolean, so insertion fallibility is modelled by an explicit boolean
oracle argument (`true` = the insert committed, `false` = `insert_one` raised and
the wrapper returned `False`).

Fields that no route in scope reads or writes and that do not embed in a shallow
model (datetime timestamps `created_at` / `purchased_at` / `invited_at` /
`joined_at` / `enrolled_at`, the floating-point monetary `amount_total` of a
license) are omitted from the document records; no statement below mentions them.
String `ObjectId`s are modelled as opaque strings (conversion `ObjectId(s)` is the
identity on valid ids).
-/

/-- MongoDB `update_one(filter, update)` on a collection modelled as a list:
apply `f` to the first document satisfying `p`; the boolean is
`modified_count > 0`. -/
def updateFirst {α : Type} (p : α → Bool) (f : α → α) : List α → List α × Bool
  | [] => ([], false)
  | x :: xs =>
    if p x then (f x :: xs, true)
    else
      let r := updateFirst p f xs
      (x :: r.1, r.2)

/-- MongoDB `delete_one(filter)`: remove the first document satisfying `p`;
the boolean is `deleted_count > 0`. -/
def deleteFirst {α : Type} (p : α → Bool) : List α → List α × Bool
  | [] => ([], false)
  | x :: xs =>
    if p x then (xs, true)
    else
      let r := deleteFirst p xs
      (x :: r.1, r.2)

/-! ## Document types (MongoDB documents as stored by the repositories) -/

/-- A document of the `users` collection (`app/db/repository.py`,
`UserRepository.create_user`): `_id`, `email`, `name`, `hashed_password`,
`role`, `is_active`, plus the `force_password_change` flag set by the
invitation workflow. -/
structure UserDoc where
  id : String
  email : String
  name : String
  hashed_password : String
  role : String
  is_active : Bool
  force_password_change : Bool := false
deriving Repr, DecidableEq

/-- A document of the `corporate_accounts` collection
(`app/domain/corporate/models.py`, `CorporateAccount`). -/
structure AccountDoc where
  id : String
  company_name : String
  company_website : Option String := none
  industry : Option String := none
  company_size : String
  address : Option String := none
  phone : Option String := none
  status : String
  admin_user_ids : List String
deriving Repr, DecidableEq

/-- A document of the `corporate_licenses` collection
(`app/domain/corporate/models.py`, `CorporateLicense`).  `total_seats` and
`assigned_seats` are machine integers in MongoDB; `$inc` arithmetic is exact
integer arithmetic, modelled with `Int`. -/
structure LicenseDoc where
  id : String
  corporate_account_id : String
  schedule_id : String
  course_id : String
  total_seats : Int
  assigned_seats : Int
  currency : String := "usd"
  status : String := "ACTIVE"
deriving Repr, DecidableEq

/-- A document of the `corporate_trainees` collection
(`app/domain/corporate/models.py`, `CorporateTrainee`). -/
structure TraineeDoc where
  id : String
  corporate_account_id : String
  user_id : String
  is_active : Bool
deriving Repr, DecidableEq

/-- A document of the `corporate_assignments` collection
(`app/domain/corporate/models.py`, `TraineeAssignment`). -/
structure AssignmentDoc where
  id : String
  license_id : String
  trainee_id : String
  status : String
deriving Repr, DecidableEq

/-- A document of the `enrollments` collection as written by
`EnrollmentRepository.create_enrollment` (`app/db/enrollment_repository.py`,
lines 18-40): the inserted document carries exactly `user_id`, `schedule_id`,
`course_id`, `status = "ENROLLED"`, `payment_status = "PENDING"`,
`payment_transaction_id` and `instructor_notes` (plus the `enrolled_at`
timestamp, omitted).  It has **no** amount, currency or Stripe-identifier
fields; `stripe_checkout_session_id` is carried as an `Option` that
`create_enrollment` never sets, so that the webhook's filter
`{"stripe_checkout_session_id": sid}` can be modelled (a document missing the
field matches only a `null` filter value). -/
structure EnrollmentDoc where
  id : String
  user_id : String
  schedule_id : String
  course_id : String
  status : String
  payment_status : String
  payment_transaction_id : Option String := none
  stripe_checkout_session_id : Option String := none
deriving Repr, DecidableEq

/-- The MongoDB database: one list per collection used by the subsystem. -/
structure AppState where
  users : List UserDoc
  accounts : List AccountDoc
  licenses : List LicenseDoc
  trainees : List TraineeDoc
  assignments : List AssignmentDoc
  enrollments : List EnrollmentDoc
deriving Repr, DecidableEq

/-! ## Repositories

Each `async def` of the Python repositories becomes a pure function
`AppState → ...`.  Methods whose body is a try/except around `insert_one`
take an `insertOk : Bool` oracle: `insert_one` raising (duplicate key or I/O
failure) is `insertOk = false`, in which case the wrapper returns `false` and
the collection is unchanged. -/

namespace CorporateRepository

/-- `create_license` (corporate_repository.py lines 59-68). -/
def create_license (s : AppState) (lic : LicenseDoc) (insertOk : Bool) :
    AppState × Bool :=
  if insertOk then ({ s with licenses := s.licenses ++ [lic] }, true) else (s, false)

/-- `find_license_by_id` (corporate_repository.py lines 84-88). -/
def find_license_by_id (s : AppState) (license_id : String) : Option LicenseDoc :=
  s.licenses.find? (fun l => l.id == license_id)

/-- `increment_assigned_seats` (corporate_repository.py lines 90-97):
`update_one({"_id": ObjectId(license_id)}, {"$inc": {"assigned_seats": 1}})`,
returning `modified_count > 0`.  The filter matches on `_id` only — there is
no seat-bound condition — and `$inc` by 1 always modifies a matched document,
so the update succeeds whenever a license with this id exists. -/
def increment_assigned_seats (s : AppState) (license_id : String) :
    AppState × Bool :=
  let r := updateFirst (fun l => l.id == license_id)
    (fun l => { l with assigned_seats := l.assigned_seats + 1 }) s.licenses
  ({ s with licenses := r.1 }, r.2)

/-- `decrement_assigned_seats` (corporate_repository.py lines 99-107):
`update_one({"_id": ObjectId(license_id), "assigned_seats": {"$gt": 0}},
{"$inc": {"assigned_seats": -1}})`. -/
def decrement_assigned_seats (s : AppState) (license_id : String) :
    AppState × Bool :=
  let r := updateFirst (fun l => l.id == license_id && decide (0 < l.assigned_seats))
    (fun l => { l with assigned_seats := l.assigned_seats - 1 }) s.licenses
  ({ s with licenses := r.1 }, r.2)

/-- `create_trainee` (corporate_repository.py lines 111-120). -/
def create_trainee (s : AppState) (t : TraineeDoc) (insertOk : Bool) :
    AppState × Bool :=
  if insertOk then ({ s with trainees := s.trainees ++ [t] }, true) else (s, false)

/-- `find_trainee_by_id` (corporate_repository.py lines 122-126). -/
def find_trainee_by_id (s : AppState) (trainee_id : String) : Option TraineeDoc :=
  s.trainees.find? (fun t => t.id == trainee_id)

/-- `find_trainee_by_email` (corporate_repository.py lines 128-132): despite
its name it filters on `(corporate_account_id, user_id)`. -/
def find_trainee_by_email (s : AppState) (account_id user_id : String) :
    Option TraineeDoc :=
  s.trainees.find? (fun t => t.corporate_account_id == account_id && t.user_id == user_id)

/-- `remove_trainee` (corporate_repository.py lines 148-153):
`delete_one({"_id": ObjectId(trainee_id)})`. -/
def remove_trainee (s : AppState) (trainee_id : String) : AppState × Bool :=
  let r := deleteFirst (fun t => t.id == trainee_id) s.trainees
  ({ s with trainees := r.1 }, r.2)

/-- `create_assignment` (corporate_repository.py lines 157-166). -/
def create_assignment (s : AppState) (a : AssignmentDoc) (insertOk : Bool) :
    AppState × Bool :=
  if insertOk then ({ s with assignments := s.assignments ++ [a] }, true) else (s, false)

/-- `remove_assignment` (corporate_repository.py lines 168-175):
`delete_one({"trainee_id": trainee_id, "license_id": license_id})`. -/
def remove_assignment (s : AppState) (trainee_id license_id : String) :
    AppState × Bool :=
  let r := deleteFirst
    (fun a => a.trainee_id == trainee_id && a.license_id == license_id) s.assignments
  ({ s with assignments := r.1 }, r.2)

/-- `find_assignment` (corporate_repository.py lines 177-178). -/
def find_assignment (s : AppState) (trainee_id license_id : String) :
    Option AssignmentDoc :=
  s.assignments.find?
    (fun a => a.trainee_id == trainee_id && a.license_id == license_id)

/-- `create_account` (corporate_repository.py lines 28-37). -/
def create_account (s : AppState) (a : AccountDoc) (insertOk : Bool) :
    AppState × Bool :=
  if insertOk then ({ s with accounts := s.accounts ++ [a] }, true) else (s, false)

/-- `find_account_by_id` (corporate_repository.py lines 39-43). -/
def find_account_by_id (s : AppState) (account_id : String) : Option AccountDoc :=
  s.accounts.find? (fun a => a.id == account_id)

end CorporateRepository

/-- Python `str.lower()` as used for email normalization (character-wise
lowercasing; the emails in this subsystem are ASCII). -/
def pyLower (s : String) : String := String.mk (s.data.map Char.toLower)

namespace UserRepository

/-- `find_by_email` (repository.py lines 60-70): the stored emails are
lowercased at creation; the query lowercases its argument. -/
def find_by_email (s : AppState) (email : String) : Option UserDoc :=
  s.users.find? (fun u => u.email == pyLower email)

/-- `create_user` (repository.py lines 21-58): raises `ValueError` if a user
with the (lowercased) email exists, otherwise inserts
`{email, name, hashed_password, role, is_active: True}`.  `none` models the
`ValueError`; the new document's generated `_id` is the `newId` argument. -/
def create_user (s : AppState) (newId email name hashed_password role : String) :
    Option (UserDoc × AppState) :=
  match s.users.find? (fun u => u.email == pyLower email) with
  | some _ => none
  | none =>
    let u : UserDoc :=
      { id := newId, email := pyLower email, name := name,
        hashed_password := hashed_password, role := role, is_active := true }
    some (u, { s with users := s.users ++ [u] })

/-- `delete_user` (repository.py lines 144-160):
`delete_one({"_id": ObjectId(user_id)})`. -/
def delete_user (s : AppState) (user_id : String) : AppState × Bool :=
  let r := deleteFirst (fun u => u.id == user_id) s.users
  ({ s with users := r.1 }, r.2)

/-- The direct collection update
`db["users"].update_one({"_id": ...}, {"$set": {"force_password_change": True}})`
performed inline by the invitation workflow (corporate.py lines 338-340). -/
def set_force_password_change (s : AppState) (user_id : String) : AppState :=
  let r := updateFirst (fun u => u.id == user_id)
    (fun u => { u with force_password_change := true }) s.users
  { s with users := r.1 }

end UserRepository

namespace EnrollmentRepository

/-- `create_enrollment` (enrollment_repository.py lines 18-40).  Its actual
signature is `(user_id, schedule_id, course_id, payment_transaction_id=None)`;
the inserted document has `status = "ENROLLED"`, `payment_status = "PENDING"`
and no Stripe identifiers (so `stripe_checkout_session_id := none`). -/
def create_enrollment (s : AppState)
    (newId user_id schedule_id course_id : String)
    (payment_transaction_id : Option String) (insertOk : Bool) :
    AppState × Option EnrollmentDoc :=
  let e : EnrollmentDoc :=
    { id := newId, user_id := user_id, schedule_id := schedule_id,
      course_id := course_id, status := "ENROLLED", payment_status := "PENDING",
      payment_transaction_id := payment_transaction_id }
  if insertOk then ({ s with enrollments := s.enrollments ++ [e] }, some e)
  else (s, none)

/-- `update_enrollment(enrollment_id, status=...)` as invoked by the unassign
route (enrollment_repository.py lines 65-102 with only `status` set):
`find_one_and_update({"_id": ObjectId(enrollment_id)}, {"$set": {"status": ...}})`. -/
def update_enrollment_status (s : AppState) (enrollment_id status : String) :
    AppState :=
  let r := updateFirst (fun e => e.id == enrollment_id)
    (fun e => { e with status := status }) s.enrollments
  { s with enrollments := r.1 }

end EnrollmentRepository

/-! ## The routers -/

/-- An error escaping a route handler: either an `HTTPException(status, detail)`
raised by the handler, or an unhandled Python exception (`TypeError`,
`AttributeError`). -/
inductive ApiError where
  | http (statusCode : Nat) (detail : String)
  | typeError (msg : String)
  | attributeError (msg : String)
deriving Repr, DecidableEq

deriving instance DecidableEq for Except

/-- All three enrollment-synchronization call sites —
`corporate.py` lines 389-397 (invite), lines 515-523 (assign) and
`payments.py` lines 191-201 (webhook) — invoke
`repo.create_enrollment(...)` with keyword arguments (`amount_total`,
`payment_status` / `currency`, `payment_method_type`,
`stripe_payment_intent_id`, `stripe_checkout_session_id`,
`stripe_customer_id`) that `EnrollmentRepository.create_enrollment`
(enrollment_repository.py lines 18-24) does not declare.  Python therefore
raises `TypeError: create_enrollment() got an unexpected keyword argument ...`
at the call, before the function body runs: the enrollments collection is
never touched by these calls. -/
def create_enrollment_unexpected_kwargs_call (s : AppState) :
    Except ApiError EnrollmentDoc × AppState :=
  (Except.error (ApiError.typeError
    "create_enrollment() got an unexpected keyword argument amount_total"), s)

/-- The attribute access `UserRole.CORPORATE_STAFF` performed by
`register_corporate_account` (corporate.py line 108).  `UserRole`
(app/domain/users/value_objects.py lines 13-18) declares only `ADMIN`,
`TUTOR` and `STUDENT` — no other definition or patch of the member exists in
the source — so in Python evaluating this expression raises `AttributeError`. -/
def userRoleCorporateStaffAccess : Except ApiError String :=
  Except.error (ApiError.attributeError
    "type object UserRole has no attribute CORPORATE_STAFF")

namespace CorporateRouter

structure RegisterCorporateRequest where
  company_name : String
  company_website : Option String := none
  industry : Option String := none
  company_size : String
  address : Option String := none
  phone : Option String := none
  admin_name : String
  admin_email : String
  admin_password : String
deriving Repr, DecidableEq

structure CorporateAccountResponse where
  id : String
  company_name : String
  company_website : Option String
  industry : Option String
  company_size : String
  address : Option String
  phone : Option String
  status : String
deriving Repr, DecidableEq

/-- `hash_password` (app/core/security.py) is an external collaborator whose
output is stored but never inspected by this subsystem; modelled as an
injective tagging function. -/
def hash_password (password : String) : String := "hashed:" ++ password

/-- `register_corporate_account` (corporate.py lines 92-152).
`newUserId` / `newAccountId` are the generated `ObjectId()`s;
`accountInsertOk` is the oracle for the `corp_repo.create_account` insert.
The body first computes `hash_password(request.admin_password)` (line 102),
then evaluates the arguments of `user_repo.create_user(...)` (lines 104-109) —
including `role=UserRole.CORPORATE_STAFF`, whose attribute access raises
`AttributeError`.  The surrounding `except ValueError` (line 110) does not
catch it, so the route always aborts there, before `create_user` runs and
before any database write; the continuation — including the
compensating-delete branch at lines 130-134, which on account-insert failure
would delete the just-created user and raise
`HTTPException(500, "Failed to create account")` — is unreachable in this
snapshot. -/
def register_corporate_account (newUserId newAccountId : String)
    (accountInsertOk : Bool) (request : RegisterCorporateRequest) (s : AppState) :
    Except ApiError CorporateAccountResponse × AppState :=
  let hashed_pwd := hash_password request.admin_password
  match userRoleCorporateStaffAccess with
  | Except.error e => (Except.error e, s)
  | Except.ok role =>
    match UserRepository.create_user s newUserId request.admin_email
      request.admin_name hashed_pwd role with
    | none => (Except.error (ApiError.http 409 "Email already registered"), s)
    | some (_user_doc, s1) =>
      let account : AccountDoc :=
        { id := newAccountId, company_name := request.company_name,
          company_website := request.company_website, industry := request.industry,
          company_size := request.company_size, address := request.address,
          phone := request.phone, status := "ACTIVE",
          admin_user_ids := [newUserId] }
      let r := CorporateRepository.create_account s1 account accountInsertOk
      if r.2 then
        match CorporateRepository.find_account_by_id r.1 newAccountId with
        | none =>
          (Except.error (ApiError.http 500 "Failed to retrieve created account"), r.1)
        | some created =>
          (Except.ok
            { id := created.id, company_name := created.company_name,
              company_website := created.company_website, industry := created.industry,
              company_size := created.company_size, address := created.address,
              phone := created.phone, status := created.status }, r.1)
      else
        let d := UserRepository.delete_user r.1 newUserId
        (Except.error (ApiError.http 500 "Failed to create account"), d.1)

structure InviteTraineeRequest where
  email : String
  name : String
  license_id : Option String := none
deriving Repr, DecidableEq

structure CorporateTraineeResponse where
  id : String
  user_id : String
  email : String
  name : String
  is_active : Bool
deriving Repr, DecidableEq

/-- `invite_trainee` (corporate.py lines 291-410), acting on behalf of the
resolved corporate account `account_id`.  `newUserId` / `newTraineeId` /
`newAssignmentId` are the generated `ObjectId()`s, `otp` the generated
one-time password; `traineeInsertOk` / `assignmentInsertOk` are the oracles
for the two fallible inserts.  Key source facts mirrored here:

* the result of `corp_repo.create_trainee(trainee)` (line 360) is discarded;
* the optional-assignment branch pre-checks `assigned_seats < total_seats`
  (line 375) and discards the result of `increment_assigned_seats` (line 383);
* the enrollment-sync call (lines 388-397) raises `TypeError` (unexpected
  keyword arguments) which the surrounding `except Exception: pass` swallows,
  so it never changes the state. -/
def invite_trainee (newUserId newTraineeId newAssignmentId otp : String)
    (traineeInsertOk assignmentInsertOk : Bool)
    (account_id : String) (request : InviteTraineeRequest) (s : AppState) :
    Except ApiError CorporateTraineeResponse × AppState :=
  let email := pyLower request.email
  -- 1. user lookup, shadow-user creation when absent
  let step1 : Except ApiError (String × AppState) :=
    match UserRepository.find_by_email s email with
    | some user_doc => Except.ok (user_doc.id, s)
    | none =>
      match UserRepository.create_user s newUserId email request.name
          (hash_password otp) "student" with
      | none => Except.error (ApiError.http 409 "User conflict during creation")
      | some (user_doc, s1) =>
        Except.ok (user_doc.id, UserRepository.set_force_password_change s1 user_doc.id)
  match step1 with
  | Except.error e => (Except.error e, s)
  | Except.ok (user_id, s1) =>
    -- 2. already-a-trainee check
    match CorporateRepository.find_trainee_by_email s1 account_id user_id with
    | some _ =>
      (Except.error (ApiError.http 409 "User is already a trainee in this account"), s1)
    | none =>
      -- 3. create the CorporateTrainee; the boolean result is discarded
      let trainee : TraineeDoc :=
        { id := newTraineeId, corporate_account_id := account_id,
          user_id := user_id, is_active := true }
      let s2 := (CorporateRepository.create_trainee s1 trainee traineeInsertOk).1
      -- 5. optional assignment
      let s3 :=
        match request.license_id with
        | none => s2
        | some lid =>
          match CorporateRepository.find_license_by_id s2 lid with
          | none => s2
          | some lic =>
            if lic.corporate_account_id == account_id then
              if decide (lic.assigned_seats < lic.total_seats) then
                let assign : AssignmentDoc :=
                  { id := newAssignmentId, license_id := lid,
                    trainee_id := trainee.id, status := "ACTIVE" }
                let rc := CorporateRepository.create_assignment s2 assign assignmentInsertOk
                if rc.2 then
                  let s4 := (CorporateRepository.increment_assigned_seats rc.1 lid).1
                  -- SYNC: create Enrollment — raises TypeError, swallowed by
                  -- `except Exception: pass`
                  (create_enrollment_unexpected_kwargs_call s4).2
                else rc.1
              else s2
            else s2
      (Except.ok
        { id := trainee.id, user_id := user_id, email := email,
          name := request.name, is_active := true }, s3)

/-- `remove_trainee` route (corporate.py lines 448-467): after the ownership
check it deletes the trainee document only (the repository result is
discarded); assignments and seat counts are not touched (source comment:
"For now just delete trainee record"). -/
def remove_trainee (account_id trainee_id : String) (s : AppState) :
    Except ApiError String × AppState :=
  match CorporateRepository.find_trainee_by_id s trainee_id with
  | none => (Except.error (ApiError.http 404 "Trainee not found"), s)
  | some trainee =>
    if trainee.corporate_account_id == account_id then
      ((Except.ok "success"), (CorporateRepository.remove_trainee s trainee_id).1)
    else
      (Except.error (ApiError.http 404 "Trainee not found"), s)

structure AssignTraineeRequest where
  trainee_id : String
  license_id : String
deriving Repr, DecidableEq

/-- `assign_trainee` (corporate.py lines 473-528).  The body is a sequence of
`await`s; between two awaits the task is suspended and other requests may
mutate the database.  `envAfterCreate` models the interleaving point between
`create_assignment` and `increment_assigned_seats` (the one the specification
discusses); a purely sequential run passes the identity.  Source facts
mirrored here:

* missing or foreign license and missing or foreign trainee both surface as
  404 (lines 485-486, 493-494);
* the seat pre-check `assigned_seats >= total_seats` surfaces as
  400 "No seats available" (lines 488-489);
* the boolean result of `increment_assigned_seats` (line 510) is discarded;
* the enrollment-sync call (lines 515-523) raises `TypeError`, swallowed by
  `except Exception: pass`. -/
def assign_trainee (envAfterCreate : AppState → AppState)
    (newAssignmentId : String) (assignmentInsertOk : Bool)
    (account_id : String) (request : AssignTraineeRequest) (s : AppState) :
    Except ApiError String × AppState :=
  match CorporateRepository.find_license_by_id s request.license_id with
  | none => (Except.error (ApiError.http 404 "License not found"), s)
  | some license_doc =>
    if license_doc.corporate_account_id == account_id then
      if decide (license_doc.total_seats ≤ license_doc.assigned_seats) then
        (Except.error (ApiError.http 400 "No seats available"), s)
      else
        match CorporateRepository.find_trainee_by_id s request.trainee_id with
        | none => (Except.error (ApiError.http 404 "Trainee not found"), s)
        | some trainee =>
          if trainee.corporate_account_id == account_id then
            match CorporateRepository.find_assignment s request.trainee_id
                request.license_id with
            | some _ => (Except.error (ApiError.http 409 "Already assigned"), s)
            | none =>
              let assign : AssignmentDoc :=
                { id := newAssignmentId, license_id := request.license_id,
                  trainee_id := request.trainee_id, status := "ACTIVE" }
              let rc := CorporateRepository.create_assignment s assign assignmentInsertOk
              if rc.2 then
                let s2 := envAfterCreate rc.1
                let s3 := (CorporateRepository.increment_assigned_seats s2
                  request.license_id).1
                -- SYNC: create Enrollment — raises TypeError, swallowed by
                -- `except Exception: pass`
                let s4 := (create_enrollment_unexpected_kwargs_call s3).2
                (Except.ok "success", s4)
              else
                (Except.error (ApiError.http 500 "Assignment failed"), rc.1)
          else (Except.error (ApiError.http 404 "Trainee not found"), s)
    else (Except.error (ApiError.http 404 "License not found"), s)

structure UnassignTraineeRequest where
  trainee_id : String
  license_id : String
deriving Repr, DecidableEq

/-- `unassign_trainee` (corporate.py lines 531-578).  The resolved corporate
account of the caller (`account_id`) is **not used** by the body — the source
checks only that the assignment exists (its own comment: "ownership check
implicit in find_assignment usually, but strictly we should check license
ownership").  After removing the assignment it decrements the seat count and,
when both the license and trainee documents resolve and an enrollment matches
`(user_id, schedule_id)`, sets that enrollment's status to DROPPED. -/
def unassign_trainee (account_id : String) (request : UnassignTraineeRequest)
    (s : AppState) : Except ApiError String × AppState :=
  match CorporateRepository.find_assignment s request.trainee_id request.license_id with
  | none => (Except.error (ApiError.http 404 "Assignment not found"), s)
  | some _ =>
    let rr := CorporateRepository.remove_assignment s request.trainee_id
      request.license_id
    if rr.2 then
      let s2 := (CorporateRepository.decrement_assigned_seats rr.1 request.license_id).1
      match CorporateRepository.find_license_by_id s2 request.license_id,
            CorporateRepository.find_trainee_by_id s2 request.trainee_id with
      | some license_doc, some trainee_doc =>
        match s2.enrollments.find?
            (fun e => e.user_id == trainee_doc.user_id &&
                      e.schedule_id == license_doc.schedule_id) with
        | some existing =>
          (Except.ok "success",
            EnrollmentRepository.update_enrollment_status s2 existing.id "DROPPED")
        | none => (Except.ok "success", s2)
      | _, _ => (Except.ok "success", s2)
    else (Except.error (ApiError.http 500 "Unassign failed"), rr.1)

end CorporateRouter

namespace PaymentsRouter

/-- The fields of a Stripe `checkout.session.completed` event object that
`_handle_checkout_session_completed` reads: `session.get("id")`,
`session.get("payment_status")`, and `metadata.get(...)` for the three
required metadata keys (payments.py lines 147-201).  Absent keys are `none`. -/
structure CheckoutSession where
  id : Option String := none
  payment_status : Option String := none
  meta_user_id : Option String := none
  meta_schedule_id : Option String := none
  meta_course_id : Option String := none
deriving Repr, DecidableEq

/-- `_handle_checkout_session_completed(session, repo)` (payments.py lines
147-201).  Steps, as in the source:

1. return unless `payment_status == "paid"`;
2. return (logged) when any of the three metadata fields is missing;
3. idempotency check 1: `find_one({"stripe_checkout_session_id": session.get("id")})`
   — a MongoDB filter on a missing field matches documents where the field is
   absent only when the filter value is null, hence the `Option` comparison;
4. idempotency check 2: `find_one({"user_id": ..., "schedule_id": ...})`;
   when it matches, the handler `pass`es (no update) and returns;
5. otherwise it calls `repo.create_enrollment(..., amount_total=...,
   currency=..., stripe_checkout_session_id=..., stripe_payment_intent_id=...,
   stripe_customer_id=..., payment_status="PAID")` — keyword arguments the
   repository method does not declare, so Python raises `TypeError`; there is
   no try/except here, so the error escapes the handler and the enrollments
   collection is unchanged. -/
def handle_checkout_session_completed (session : CheckoutSession) (s : AppState) :
    Except ApiError Unit × AppState :=
  if session.payment_status ≠ some "paid" then (Except.ok (), s)
  else
    match session.meta_user_id, session.meta_schedule_id, session.meta_course_id with
    | some user_id, some schedule_id, some _course_id =>
      match s.enrollments.find?
          (fun e => e.stripe_checkout_session_id == session.id) with
      | some _ => (Except.ok (), s)  -- already processed for this session id
      | none =>
        match s.enrollments.find?
            (fun e => e.user_id == user_id && e.schedule_id == schedule_id) with
        | some _ => (Except.ok (), s)  -- `pass`: no update is performed
        | none =>
          let r := create_enrollment_unexpected_kwargs_call s
          (r.1.map (fun _ => ()), r.2)
    | _, _, _ => (Except.ok (), s)  -- missing metadata: logged and dropped

end PaymentsRouter

/-! ## Seat-state operations and reachability

The seat invariant of the specification quantifies over states produced by
sequences of `purchaseLicense`, `assign`, `unassign`, `incrementAssignedSeats`
and `decrementAssignedSeats`.  `SeatOp` lists exactly these operations;
`purchaseLicense` creates a license with `assigned_seats = 0` and
`total_seats ≥ 1` (§4.2 of the specification; `CorporateLicense` declares
`total_seats: int = Field(ge=1)` and `assigned_seats: int = Field(default=0, ge=0)`
— there is no purchase route in the snapshot, the checkout flow being mocked).
Runs are sequential: each operation runs to completion (`assign` with the
identity interleaving). -/
inductive SeatOp where
  | purchase (lic : LicenseDoc) (insertOk : Bool)
  | assignStep (account_id : String) (request : CorporateRouter.AssignTraineeRequest)
      (newAssignmentId : String) (insertOk : Bool)
  | unassignStep (account_id : String) (request : CorporateRouter.UnassignTraineeRequest)
  | increment (license_id : String)
  | decrement (license_id : String)
deriving Repr, DecidableEq

/-- Effect of one seat-state operation on the database. -/
def SeatOp.apply : SeatOp → AppState → AppState
  | SeatOp.purchase lic insertOk, s => (CorporateRepository.create_license s lic insertOk).1
  | SeatOp.assignStep account_id request newAssignmentId insertOk, s =>
    (CorporateRouter.assign_trainee (fun t => t) newAssignmentId insertOk
      account_id request s).2
  | SeatOp.unassignStep account_id request, s =>
    (CorporateRouter.unassign_trainee account_id request s).2
  | SeatOp.increment license_id, s =>
    (CorporateRepository.increment_assigned_seats s license_id).1
  | SeatOp.decrement license_id, s =>
    (CorporateRepository.decrement_assigned_seats s license_id).1

/-- A purchase operation as it can actually be issued: a fresh license starts
with zero assigned seats and at least one total seat. -/
def SeatOp.WellFormed : SeatOp → Prop
  | SeatOp.purchase lic _ => lic.assigned_seats = 0 ∧ 1 ≤ lic.total_seats
  | _ => True

/-- States reachable from a license-free database by any sequence of the five
seat-state operations. -/
inductive SeatReachable : AppState → Prop where
  | init (s : AppState) (h : s.licenses = []) : SeatReachable s
  | step {s : AppState} (op : SeatOp) (hop : op.WellFormed) (hs : SeatReachable s) :
      SeatReachable (op.apply s)

/-- Whether a seat-state operation is the raw repository increment. -/
def SeatOp.isRawIncrement : SeatOp → Prop
  | SeatOp.increment _ => True
  | _ => False

/-- States reachable using the four operations other than the raw repository
`incrementAssignedSeats` (whose only caller in the routers is guarded by the
seat pre-check). -/
inductive SeatReachableNoInc : AppState → Prop where
  | init (s : AppState) (h : s.licenses = []) : SeatReachableNoInc s
  | step {s : AppState} (op : SeatOp) (hop : op.WellFormed) (hinc : ¬ op.isRawIncrement)
      (hs : SeatReachableNoInc s) : SeatReachableNoInc (op.apply s)

/-- Lower half of the seat invariant: no license has negative assigned seats. -/
def seatLowerInv (s : AppState) : Prop :=
  ∀ lic ∈ s.licenses, 0 ≤ lic.assigned_seats

/-- The full seat invariant of the specification:
`0 ≤ assigned_seats ≤ total_seats` for every license. -/
def seatInv (s : AppState) : Prop :=
  ∀ lic ∈ s.licenses, 0 ≤ lic.assigned_seats ∧ lic.assigned_seats ≤ lic.total_seats

/-! ## Concrete example states used by the closed statements below -/

/-- The empty database. -/
def emptyState : AppState :=
  { users := [], accounts := [], licenses := [], trainees := [],
    assignments := [], enrollments := [] }

/-- A saturated license: every seat taken (`assigned_seats = total_seats = 1`). -/
def exSaturatedLicense : LicenseDoc :=
  { id := "L1", corporate_account_id := "A1", schedule_id := "S1",
    course_id := "CRS1", total_seats := 1, assigned_seats := 1 }

def exSaturatedState : AppState := { emptyState with licenses := [exSaturatedLicense] }

def exOneSeatLicense : LicenseDoc :=
  { id := "L2", corporate_account_id := "A2", schedule_id := "S2",
    course_id := "CRS2", total_seats := 1, assigned_seats := 0 }

/-- Purchase one single-seat license, then apply the raw repository increment
twice. -/
def exOverIncremented : AppState :=
  (SeatOp.increment "L2").apply ((SeatOp.increment "L2").apply
    ((SeatOp.purchase exOneSeatLicense true).apply emptyState))

def exC3License : LicenseDoc :=
  { id := "L3", corporate_account_id := "A3", schedule_id := "S3",
    course_id := "CRS3", total_seats := 2, assigned_seats := 0 }

def exC3Trainee : TraineeDoc :=
  { id := "T3", corporate_account_id := "A3", user_id := "U3", is_active := true }

def exC3State : AppState :=
  { emptyState with licenses := [exC3License], trainees := [exC3Trainee] }

/-- Interference running while the assign task is suspended at the `await`
between `create_assignment` and `increment_assigned_seats`: here the license
document disappears (any concurrent writer to the shared MongoDB can do this),
which makes the subsequent increment report `modified_count = 0`, i.e. return
`false` — the exact situation the specification discusses.  The assignments
collection is untouched. -/
def exC3Interference : AppState → AppState := fun t => { t with licenses := [] }

/-- A fully-populated "paid" checkout-session-completed event. -/
def exC4Event : PaymentsRouter.CheckoutSession :=
  { id := some "cs_1", payment_status := some "paid", meta_user_id := some "U4",
    meta_schedule_id := some "S4", meta_course_id := some "CRS4" }

def exC5User : UserDoc :=
  { id := "U5", email := "tia@corp.example", name := "Tia",
    hashed_password := "h", role := "student", is_active := true }

/-- A license with exactly one free seat. -/
def exC5License : LicenseDoc :=
  { id := "L5", corporate_account_id := "A5", schedule_id := "S5",
    course_id := "CRS5", total_seats := 2, assigned_seats := 1 }

def exC5State : AppState :=
  { emptyState with users := [exC5User], licenses := [exC5License] }

/-- A license owned by account `B6` — not by the caller, whose account is `A6`. -/
def exC6License : LicenseDoc :=
  { id := "L6", corporate_account_id := "B6", schedule_id := "S6",
    course_id := "CRS6", total_seats := 3, assigned_seats := 1 }

def exC6Trainee : TraineeDoc :=
  { id := "T6", corporate_account_id := "B6", user_id := "U6", is_active := true }

def exC6Assignment : AssignmentDoc :=
  { id := "AS6", license_id := "L6", trainee_id := "T6", status := "ACTIVE" }

def exC6State : AppState :=
  { emptyState with licenses := [exC6License], trainees := [exC6Trainee], assignments := [exC6Assignment] }

def exC8License : LicenseDoc :=
  { id := "L8", corporate_account_id := "A8", schedule_id := "S8",
    course_id := "CRS8", total_seats := 2, assigned_seats := 0 }

def exC8Trainee : TraineeDoc :=
  { id := "T8", corporate_account_id := "A8", user_id := "U8", is_active := true }

/-- A pre-existing enrollment matching `(U8, S8)` — e.g. created by the payment
webhook or a direct purchase. -/
def exC8Enrollment : EnrollmentDoc :=
  { id := "E8", user_id := "U8", schedule_id := "S8", course_id := "CRS8",
    status := "ENROLLED", payment_status := "PAID" }

def exC8State : AppState :=
  { emptyState with licenses := [exC8License], trainees := [exC8Trainee], enrollments := [exC8Enrollment] }

def exC9User : UserDoc :=
  { id := "U9", email := "unine@corp.example", name := "U Nine",
    hashed_password := "h", role := "student", is_active := true }

def exC9State : AppState := { emptyState with users := [exC9User] }

def exC10License : LicenseDoc :=
  { id := "L10", corporate_account_id := "A10", schedule_id := "S10",
    course_id := "CRS10", total_seats := 1, assigned_seats := 1 }

def exC10Trainee : TraineeDoc :=
  { id := "T10", corporate_account_id := "A10", user_id := "U10", is_active := true }

def exC10Assignment : AssignmentDoc :=
  { id := "AS10", license_id := "L10", trainee_id := "T10", status := "ACTIVE" }

def exC10State : AppState :=
  { emptyState with licenses := [exC10License], trainees := [exC10Trainee], assignments := [exC10Assignment] }

/-! ## Helper lemmas about the collection primitives -/

theorem updateFirst_of_find_eq_none {α : Type} (p : α → Bool) (f : α → α) :
    ∀ l : List α, l.find? p = none → updateFirst p f l = (l, false) := by
  intro l h
  induction l with
  | nil => rfl
  | cons x xs ih =>
    by_cases hx : p x
    · simp [List.find?_cons_of_pos _ hx] at h
    · rw [List.find?_cons_of_neg _ hx] at h
      simp [updateFirst, hx, ih h]

theorem deleteFirst_of_find_eq_none {α : Type} (p : α → Bool) :
    ∀ l : List α, l.find? p = none → deleteFirst p l = (l, false) := by
  intro l h
  induction l with
  | nil => rfl
  | cons x xs ih =>
    by_cases hx : p x
    · simp [List.find?_cons_of_pos _ hx] at h
    · rw [List.find?_cons_of_neg _ hx] at h
      simp [deleteFirst, hx, ih h]

/-- A successful `find?` splits the collection into an unmatched prefix,
the found document, and a suffix. -/
theorem find?_eq_some_decomp {α : Type} (p : α → Bool) :
    ∀ l : List α, ∀ b : α, l.find? p = some b →
      ∃ l1 l2, l = l1 ++ b :: l2 ∧ (∀ x ∈ l1, p x = false) ∧ p b = true := by
  intro l
  induction l with
  | nil => intro b h; simp at h
  | cons x xs ih =>
    intro b h
    by_cases hx : p x
    · rw [List.find?_cons_of_pos _ hx] at h
      refine ⟨[], xs, ?_, ?_, ?_⟩
      · simp [(Option.some_inj.mp h).symm]
      · intro y hy; simp at hy
      · rw [← Option.some_inj.mp h]; exact hx
    · rw [List.find?_cons_of_neg _ hx] at h
      obtain ⟨l1, l2, hl, hpre, hb⟩ := ih b h
      refine ⟨x :: l1, l2, by simp [hl], ?_, hb⟩
      intro y hy
      rcases List.mem_cons.mp hy with h1 | h2
      · simp [h1, hx]
      · exact hpre y h2

theorem updateFirst_append_unmatched {α : Type} (p : α → Bool) (f : α → α) (b : α)
    (hb : p b = true) :
    ∀ l1 l2 : List α, (∀ x ∈ l1, p x = false) →
      updateFirst p f (l1 ++ b :: l2) = (l1 ++ f b :: l2, true) := by
  intro l1
  induction l1 with
  | nil => intro l2 _; simp [updateFirst, hb]
  | cons x xs ih =>
    intro l2 hpre
    have hx : p x = false := hpre x (List.mem_cons_self x xs)
    have hxs : ∀ y ∈ xs, p y = false := fun y hy => hpre y (List.mem_cons_of_mem x hy)
    simp [updateFirst, hx, ih l2 hxs]

theorem deleteFirst_append_unmatched {α : Type} (p : α → Bool) (b : α)
    (hb : p b = true) :
    ∀ l1 l2 : List α, (∀ x ∈ l1, p x = false) →
      deleteFirst p (l1 ++ b :: l2) = (l1 ++ l2, true) := by
  intro l1
  induction l1 with
  | nil => intro l2 _; simp [deleteFirst, hb]
  | cons x xs ih =>
    intro l2 hpre
    have hx : p x = false := hpre x (List.mem_cons_self x xs)
    have hxs : ∀ y ∈ xs, p y = false := fun y hy => hpre y (List.mem_cons_of_mem x hy)
    simp [deleteFirst, hx, ih l2 hxs]

theorem find?_append_unmatched {α : Type} (p : α → Bool) (b : α)
    (hb : p b = true) :
    ∀ l1 l2 : List α, (∀ x ∈ l1, p x = false) →
      (l1 ++ b :: l2).find? p = some b := by
  intro l1
  induction l1 with
  | nil => intro l2 _; simp [List.find?_cons_of_pos _ hb]
  | cons x xs ih =>
    intro l2 hpre
    have hx : p x = false := hpre x (List.mem_cons_self x xs)
    have hxs : ∀ y ∈ xs, p y = false := fun y hy => hpre y (List.mem_cons_of_mem x hy)
    simpa [List.find?_cons_of_neg, hx] using ih l2 hxs

/-- Every document of an updated collection is either an untouched original or
the image under `f` of an original matching the filter. -/
theorem mem_updateFirst {α : Type} (p : α → Bool) (f : α → α) :
    ∀ l : List α, ∀ a ∈ (updateFirst p f l).1,
      a ∈ l ∨ ∃ b, b ∈ l ∧ p b = true ∧ a = f b := by
  intro l
  induction l with
  | nil => intro a ha; simp [updateFirst] at ha
  | cons x xs ih =>
    intro a ha
    by_cases hx : p x
    · simp only [updateFirst, if_pos hx] at ha
      rcases List.mem_cons.mp ha with h1 | h2
      · exact Or.inr ⟨x, List.mem_cons_self x xs, hx, h1⟩
      · exact Or.inl (List.mem_cons_of_mem x h2)
    · simp only [updateFirst, if_neg hx] at ha
      rcases List.mem_cons.mp ha with h1 | h2
      · exact Or.inl (by simp [h1])
      · rcases ih a h2 with h3 | ⟨b, hb, hpb, hab⟩
        · exact Or.inl (List.mem_cons_of_mem x h3)
        · exact Or.inr ⟨b, List.mem_cons_of_mem x hb, hpb, hab⟩

/-- `update_one` on an absent document leaves the collection unchanged and
reports no modification. -/
theorem updateFirst_self_of_none {α : Type} (p : α → Bool) (f : α → α)
    (l : List α) (h : l.find? p = none) : (updateFirst p f l).1 = l := by
  rw [updateFirst_of_find_eq_none p f l h]

theorem increment_preserves_lower (s : AppState) (license_id : String)
    (h : seatLowerInv s) :
    seatLowerInv (CorporateRepository.increment_assigned_seats s license_id).1 := by
  intro lic hmem
  simp only [CorporateRepository.increment_assigned_seats] at hmem
  rcases mem_updateFirst _ _ s.licenses lic hmem with h1 | ⟨b, hb, _, rfl⟩
  · exact h lic h1
  · have hb0 := h b hb
    simp only []
    omega

theorem decrement_preserves_lower (s : AppState) (license_id : String)
    (h : seatLowerInv s) :
    seatLowerInv (CorporateRepository.decrement_assigned_seats s license_id).1 := by
  intro lic hmem
  simp only [CorporateRepository.decrement_assigned_seats] at hmem
  rcases mem_updateFirst _ _ s.licenses lic hmem with h1 | ⟨b, hb, hpb, rfl⟩
  · exact h lic h1
  · simp only [Bool.and_eq_true, decide_eq_true_eq] at hpb
    simp only []
    omega

theorem decrement_preserves_inv (s : AppState) (license_id : String)
    (h : seatInv s) :
    seatInv (CorporateRepository.decrement_assigned_seats s license_id).1 := by
  intro lic hmem
  simp only [CorporateRepository.decrement_assigned_seats] at hmem
  rcases mem_updateFirst _ _ s.licenses lic hmem with h1 | ⟨b, hb, hpb, rfl⟩
  · exact h lic h1
  · simp only [Bool.and_eq_true, decide_eq_true_eq] at hpb
    have hb0 := h b hb
    simp only []
    omega

theorem seatLowerInv_of_licenses_eq {s1 s2 : AppState}
    (h : s2.licenses = s1.licenses) (hs : seatLowerInv s1) : seatLowerInv s2 := by
  intro lic hmem
  exact hs lic (by rw [← h]; exact hmem)

theorem seatInv_of_licenses_eq {s1 s2 : AppState}
    (h : s2.licenses = s1.licenses) (hs : seatInv s1) : seatInv s2 := by
  intro lic hmem
  exact hs lic (by rw [← h]; exact hmem)

/-- An increment issued under the routers' seat pre-check
(`assigned_seats < total_seats` read on the same state) preserves the full
seat invariant. -/
theorem increment_precheck_preserves_inv (s : AppState) (license_id : String)
    (lic : LicenseDoc)
    (hfl : CorporateRepository.find_license_by_id s license_id = some lic)
    (hlt : lic.assigned_seats < lic.total_seats) (h : seatInv s) :
    seatInv (CorporateRepository.increment_assigned_seats s license_id).1 := by
  have hfl2 : s.licenses.find? (fun l => l.id == license_id) = some lic := hfl
  obtain ⟨l1, l2, hdecomp, hpre, hpb⟩ :=
    find?_eq_some_decomp (fun l => l.id == license_id) s.licenses lic hfl2
  intro x hmem
  simp only [CorporateRepository.increment_assigned_seats] at hmem
  rw [hdecomp, updateFirst_append_unmatched _ _ lic hpb l1 l2 hpre] at hmem
  rcases List.mem_append.mp hmem with h1 | h2
  · exact h x (by rw [hdecomp]; exact List.mem_append_left _ h1)
  · rcases List.mem_cons.mp h2 with h3 | h4
    · subst h3
      have hb := h lic (by rw [hdecomp]; exact List.mem_append_right _ (List.mem_cons_self _ _))
      constructor
      · simp only []; omega
      · simp only []; omega
    · exact h x (by rw [hdecomp]; exact List.mem_append_right _ (List.mem_cons_of_mem _ h4))


/-- The licenses collection after `assign_trainee` (sequential run): either
untouched, or incremented under the seat pre-check. -/
theorem assign_trainee_licenses (newAssignmentId : String) (insertOk : Bool)
    (account_id : String) (request : CorporateRouter.AssignTraineeRequest)
    (s : AppState) :
    (CorporateRouter.assign_trainee (fun t => t) newAssignmentId insertOk
        account_id request s).2.licenses = s.licenses ∨
      ∃ lic, CorporateRepository.find_license_by_id s request.license_id = some lic ∧
        lic.assigned_seats < lic.total_seats ∧
        (CorporateRouter.assign_trainee (fun t => t) newAssignmentId insertOk
            account_id request s).2.licenses =
          (CorporateRepository.increment_assigned_seats s request.license_id).1.licenses := by
  unfold CorporateRouter.assign_trainee
  cases hfl : CorporateRepository.find_license_by_id s request.license_id with
  | none => simp
  | some license_doc =>
    simp only []
    by_cases hown : (license_doc.corporate_account_id == account_id) = true
    · simp only [hown, if_true]
      by_cases hsat : (decide (license_doc.total_seats ≤ license_doc.assigned_seats)) = true
      · simp [hsat]
      · simp only [Bool.not_eq_true] at hsat
        simp only [hsat, Bool.false_eq_true, if_false]
        cases htr : CorporateRepository.find_trainee_by_id s request.trainee_id with
        | none => simp
        | some trainee =>
          simp only []
          by_cases htown : (trainee.corporate_account_id == account_id) = true
          · simp only [htown, if_true]
            cases hasg : CorporateRepository.find_assignment s request.trainee_id
                request.license_id with
            | some a => simp
            | none =>
              simp only []
              cases hins : insertOk with
              | false => simp [CorporateRepository.create_assignment]
              | true =>
                right
                refine ⟨license_doc, rfl, ?_, ?_⟩
                · have : ¬ (license_doc.total_seats ≤ license_doc.assigned_seats) := by
                    simpa using hsat
                  omega
                · simp [CorporateRepository.create_assignment,
                    create_enrollment_unexpected_kwargs_call,
                    CorporateRepository.increment_assigned_seats]
          · simp [htown]
    · simp [hown]

/-- The licenses collection after `unassign_trainee`: either untouched, or
passed through the guarded decrement. -/
theorem unassign_trainee_licenses (account_id : String)
    (request : CorporateRouter.UnassignTraineeRequest) (s : AppState) :
    (CorporateRouter.unassign_trainee account_id request s).2.licenses = s.licenses ∨
      (CorporateRouter.unassign_trainee account_id request s).2.licenses =
        (CorporateRepository.decrement_assigned_seats s request.license_id).1.licenses := by
  unfold CorporateRouter.unassign_trainee
  cases hfa : CorporateRepository.find_assignment s request.trainee_id
      request.license_id with
  | none => simp
  | some a =>
    simp only [CorporateRepository.remove_assignment]
    by_cases hrm : (deleteFirst
        (fun x => x.trainee_id == request.trainee_id && x.license_id == request.license_id)
        s.assignments).2 = true
    · simp only [hrm, if_true]
      right
      split
      · split
        · simp [EnrollmentRepository.update_enrollment_status,
            CorporateRepository.decrement_assigned_seats]
        · simp [CorporateRepository.decrement_assigned_seats]
      · simp [CorporateRepository.decrement_assigned_seats]
    · simp only [Bool.not_eq_true] at hrm
      simp [hrm]

theorem seatReachable_lower {s : AppState} (h : SeatReachable s) : seatLowerInv s := by
  induction h with
  | init s0 hl =>
    intro lic hmem
    rw [hl] at hmem
    simp at hmem
  | @step s1 op hop hs ih =>
    cases op with
    | purchase lic insertOk =>
      intro x hmem
      simp only [SeatOp.apply, CorporateRepository.create_license] at hmem
      cases insertOk with
      | false => exact ih x (by simpa using hmem)
      | true =>
        simp only [if_true] at hmem
        rcases List.mem_append.mp hmem with h1 | h2
        · exact ih x h1
        · rcases hop with ⟨h0, _⟩
          simp at h2
          rw [h2, h0]
    | assignStep account_id request newAssignmentId insertOk =>
      simp only [SeatOp.apply]
      rcases assign_trainee_licenses newAssignmentId insertOk account_id request s1 with
        hc | ⟨lic, _, _, hc⟩
      · exact seatLowerInv_of_licenses_eq hc ih
      · exact seatLowerInv_of_licenses_eq hc (increment_preserves_lower s1 _ ih)
    | unassignStep account_id request =>
      simp only [SeatOp.apply]
      rcases unassign_trainee_licenses account_id request s1 with hc | hc
      · exact seatLowerInv_of_licenses_eq hc ih
      · exact seatLowerInv_of_licenses_eq hc (decrement_preserves_lower s1 _ ih)
    | increment license_id =>
      simpa only [SeatOp.apply] using increment_preserves_lower s1 license_id ih
    | decrement license_id =>
      simpa only [SeatOp.apply] using decrement_preserves_lower s1 license_id ih

theorem seatReachableNoInc_inv {s : AppState} (h : SeatReachableNoInc s) : seatInv s := by
  induction h with
  | init s0 hl =>
    intro lic hmem
    rw [hl] at hmem
    simp at hmem
  | @step s1 op hop hinc hs ih =>
    cases op with
    | purchase lic insertOk =>
      intro x hmem
      simp only [SeatOp.apply, CorporateRepository.create_license] at hmem
      cases insertOk with
      | false => exact ih x (by simpa using hmem)
      | true =>
        simp only [if_true] at hmem
        rcases List.mem_append.mp hmem with h1 | h2
        · exact ih x h1
        · rcases hop with ⟨h0, h1t⟩
          simp at h2
          rw [h2]
          constructor
          · rw [h0]
          · rw [h0]; omega
    | assignStep account_id request newAssignmentId insertOk =>
      simp only [SeatOp.apply]
      rcases assign_trainee_licenses newAssignmentId insertOk account_id request s1 with
        hc | ⟨lic, hfl, hlt, hc⟩
      · exact seatInv_of_licenses_eq hc ih
      · exact seatInv_of_licenses_eq hc
          (increment_precheck_preserves_inv s1 request.license_id lic hfl hlt ih)
    | unassignStep account_id request =>
      simp only [SeatOp.apply]
      rcases unassign_trainee_licenses account_id request s1 with hc | hc
      · exact seatInv_of_licenses_eq hc ih
      · exact seatInv_of_licenses_eq hc (decrement_preserves_inv s1 _ ih)
    | increment license_id =>
      exact absurd trivial hinc
    | decrement license_id =>
      simpa only [SeatOp.apply] using decrement_preserves_inv s1 license_id ih

/-! ## Claims -/

/-- C1 (amended): `increment_assigned_seats(licenseId)` is a single atomic
update of the license document, but an unconditional one: whenever a license
with the given id exists it returns true and increments `assigned_seats` by
exactly 1 — regardless of `total_seats`, with no saturation check — and it
returns false (not an exception), leaving the state unchanged, exactly when no
such license exists. -/
theorem increment_assigned_seats_unconditional (s : AppState) (license_id : String) :
    (∀ lic, CorporateRepository.find_license_by_id s license_id = some lic →
        (CorporateRepository.increment_assigned_seats s license_id).2 = true ∧
          CorporateRepository.find_license_by_id
              (CorporateRepository.increment_assigned_seats s license_id).1 license_id =
            some { lic with assigned_seats := lic.assigned_seats + 1 }) ∧
      (CorporateRepository.find_license_by_id s license_id = none →
        CorporateRepository.increment_assigned_seats s license_id = (s, false)) := by
  constructor
  · intro lic hfl
    have hfl2 : s.licenses.find? (fun l => l.id == license_id) = some lic := hfl
    obtain ⟨l1, l2, hdecomp, hpre, hpb⟩ :=
      find?_eq_some_decomp (fun l => l.id == license_id) s.licenses lic hfl2
    have hupd : updateFirst (fun l => l.id == license_id)
        (fun l => { l with assigned_seats := l.assigned_seats + 1 }) s.licenses =
        (l1 ++ { lic with assigned_seats := lic.assigned_seats + 1 } :: l2, true) := by
      rw [hdecomp]
      exact updateFirst_append_unmatched _ _ lic hpb l1 l2 hpre
    constructor
    · simp only [CorporateRepository.increment_assigned_seats, hupd]
    · simp only [CorporateRepository.increment_assigned_seats,
        CorporateRepository.find_license_by_id, hupd]
      exact find?_append_unmatched (fun l => l.id == license_id)
        { lic with assigned_seats := lic.assigned_seats + 1 } hpb l1 l2 hpre
  · intro hnone
    have hnone2 : s.licenses.find? (fun l => l.id == license_id) = none := hnone
    simp only [CorporateRepository.increment_assigned_seats,
      updateFirst_of_find_eq_none _ _ s.licenses hnone2]

/-- Witness for the C1 theorem, at a saturated license (1 of 1 seats taken):
the increment reports success and pushes `assigned_seats` to 2. -/
theorem increment_assigned_seats_unconditional_witness :
    (CorporateRepository.increment_assigned_seats exSaturatedState "L1").2 = true ∧
      CorporateRepository.find_license_by_id
          (CorporateRepository.increment_assigned_seats exSaturatedState "L1").1 "L1" =
        some { exSaturatedLicense with assigned_seats := exSaturatedLicense.assigned_seats + 1 } :=
  (increment_assigned_seats_unconditional exSaturatedState "L1").1
    exSaturatedLicense (by decide)

/-- C1, counterexample: the claim says the increment returns false and leaves
`assigned_seats` unchanged when `assigned_seats ≥ total_seats`; on a license
with `assigned_seats = total_seats = 1` the code returns true and sets
`assigned_seats = 2`. -/
theorem increment_saturated_counterexample :
    exSaturatedLicense.total_seats ≤ exSaturatedLicense.assigned_seats ∧
      (CorporateRepository.increment_assigned_seats exSaturatedState "L1").2 = true ∧
      (CorporateRepository.increment_assigned_seats exSaturatedState "L1").1.licenses =
        [{ exSaturatedLicense with assigned_seats := 2 }] ∧
      ¬ ((CorporateRepository.increment_assigned_seats exSaturatedState "L1").2 = false ∧
          (CorporateRepository.increment_assigned_seats exSaturatedState "L1").1 =
            exSaturatedState) := by
  decide

/-- C2 (amended): along any sequence of purchaseLicense / assign / unassign /
decrementAssignedSeats / incrementAssignedSeats the lower bound
`0 ≤ assigned_seats` always holds (decrements are guarded by
`assigned_seats > 0`); and along any sequence avoiding the raw repository
increment the full invariant `0 ≤ assigned_seats ≤ total_seats` holds, because
the router's only increment sits behind the `assigned_seats < total_seats`
pre-check.  The raw `incrementAssignedSeats` itself is unconditional, so
sequences containing it can exceed `total_seats`: violating increments are not
rejected (see the counterexample). -/
theorem seat_invariant_amended (s : AppState) :
    (SeatReachable s → seatLowerInv s) ∧ (SeatReachableNoInc s → seatInv s) :=
  ⟨seatReachable_lower, seatReachableNoInc_inv⟩

/-- Witness for the C2 theorem: the over-incremented state still satisfies the
lower bound, and a freshly purchased license satisfies the full invariant. -/
theorem seat_invariant_amended_witness :
    seatLowerInv exOverIncremented ∧
      seatInv ((SeatOp.purchase exOneSeatLicense true).apply emptyState) := by
  constructor
  · exact (seat_invariant_amended exOverIncremented).1
      (SeatReachable.step _ trivial (SeatReachable.step _ trivial
        (SeatReachable.step _ ⟨rfl, by decide⟩ (SeatReachable.init _ rfl))))
  · exact (seat_invariant_amended _).2
      (SeatReachableNoInc.step _ ⟨rfl, by decide⟩ (fun h => h)
        (SeatReachableNoInc.init _ rfl))

/-- C2, counterexample: purchaseLicense (one seat) followed by two raw
incrementAssignedSeats calls is a sequence of the claimed operation set, yet
it reaches a state whose license has `assigned_seats = 2 > total_seats = 1`:
the violating increments were not rejected. -/
theorem seat_invariant_counterexample :
    SeatReachable exOverIncremented ∧
      exOverIncremented.licenses = [{ exOneSeatLicense with assigned_seats := 2 }] ∧
      ¬ seatInv exOverIncremented := by
  refine ⟨?_, by decide, ?_⟩
  · exact SeatReachable.step _ trivial (SeatReachable.step _ trivial
      (SeatReachable.step _ ⟨rfl, by decide⟩ (SeatReachable.init _ rfl)))
  · intro hinv
    have hmem : ({ exOneSeatLicense with assigned_seats := 2 } : LicenseDoc) ∈
        exOverIncremented.licenses := by decide
    have h2 := (hinv _ hmem).2
    revert h2
    decide

/-- C4 (the code, evaluated at the failing input): a fully-populated "paid"
checkout-session event delivered twice to an empty enrollment ledger.  Both
deliveries escape with `TypeError` — `_handle_checkout_session_completed`
calls `create_enrollment` with keyword arguments the repository method does
not declare — no Enrollment document is ever written, and after the two
deliveries the number of enrollments keyed by the event's checkout-session id
is 0, not 1. -/
theorem payment_reconciliation_typeerror_evidence :
    (PaymentsRouter.handle_checkout_session_completed exC4Event emptyState).1 =
        Except.error (ApiError.typeError
          "create_enrollment() got an unexpected keyword argument amount_total") ∧
      (PaymentsRouter.handle_checkout_session_completed exC4Event emptyState).2 =
        emptyState ∧
      (PaymentsRouter.handle_checkout_session_completed exC4Event
          (PaymentsRouter.handle_checkout_session_completed exC4Event emptyState).2).1 =
        Except.error (ApiError.typeError
          "create_enrollment() got an unexpected keyword argument amount_total") ∧
      ((PaymentsRouter.handle_checkout_session_completed exC4Event
            (PaymentsRouter.handle_checkout_session_completed exC4Event
              emptyState).2).2.enrollments.filter
          (fun e => e.stripe_checkout_session_id == some "cs_1")).length = 0 := by
  decide

/-- C5 (the code, evaluated at the failing input): inviting a fresh trainee
with `optionalLicenseId` pointing at a license the account owns with exactly
one free seat creates the CorporateTrainee, creates the TraineeAssignment and
increments `assigned_seats` by 1 — but creates NO Enrollment: the
enrollment-sync call raises `TypeError` (unexpected keyword arguments) which
the route swallows, so the ledger stays empty instead of holding one
enrollment with amount 0 and status PAID. -/
theorem invite_auto_assign_creates_no_enrollment_evidence :
    (CorporateRouter.invite_trainee "UX5" "T5" "AS5" "otp" true true "A5"
        { email := "tia@corp.example", name := "Tia", license_id := some "L5" }
        exC5State).1 =
      Except.ok { id := "T5", user_id := "U5", email := "tia@corp.example", name := "Tia", is_active := true } ∧
      (CorporateRouter.invite_trainee "UX5" "T5" "AS5" "otp" true true "A5"
          { email := "tia@corp.example", name := "Tia", license_id := some "L5" }
          exC5State).2.trainees =
        [{ id := "T5", corporate_account_id := "A5", user_id := "U5", is_active := true }] ∧
      (CorporateRouter.invite_trainee "UX5" "T5" "AS5" "otp" true true "A5"
          { email := "tia@corp.example", name := "Tia", license_id := some "L5" }
          exC5State).2.assignments =
        [{ id := "AS5", license_id := "L5", trainee_id := "T5", status := "ACTIVE" }] ∧
      CorporateRepository.find_license_by_id
          (CorporateRouter.invite_trainee "UX5" "T5" "AS5" "otp" true true "A5"
            { email := "tia@corp.example", name := "Tia", license_id := some "L5" }
            exC5State).2 "L5" =
        some { exC5License with assigned_seats := 2 } ∧
      (CorporateRouter.invite_trainee "UX5" "T5" "AS5" "otp" true true "A5"
          { email := "tia@corp.example", name := "Tia", license_id := some "L5" }
          exC5State).2.enrollments = [] := by
  decide

/-- C9: `invite_trainee` discards the boolean returned by `create_trainee`
(corporate.py line 360): in a run where the trainee-store insert fails, the
route still answers success carrying the generated trainee id and email, while
no trainee with that id exists in the store. -/
theorem invite_ignores_trainee_insert_failure :
    (CorporateRouter.invite_trainee "UX9" "T9" "AS9" "otp" false true "A9"
        { email := "unine@corp.example", name := "U Nine" } exC9State).1 =
      Except.ok { id := "T9", user_id := "U9", email := "unine@corp.example", name := "U Nine", is_active := true } ∧
      ((CorporateRouter.invite_trainee "UX9" "T9" "AS9" "otp" false true "A9"
          { email := "unine@corp.example", name := "U Nine" }
          exC9State).2.trainees.find? (fun t => t.id == "T9")) = none := by
  decide

/-- C10: `remove_trainee` deletes only the CorporateTrainee document: for any
trainee owned by the caller's account, the assignments, licenses (hence every
`assigned_seats` value), enrollments and users collections are untouched, and
the trainees collection merely loses the first document with that id. -/
theorem remove_trainee_only_deletes_trainee (account_id trainee_id : String)
    (s : AppState) (t : TraineeDoc)
    (hft : CorporateRepository.find_trainee_by_id s trainee_id = some t)
    (hown : t.corporate_account_id = account_id) :
    (CorporateRouter.remove_trainee account_id trainee_id s).1 = Except.ok "success" ∧
      (CorporateRouter.remove_trainee account_id trainee_id s).2.assignments =
        s.assignments ∧
      (CorporateRouter.remove_trainee account_id trainee_id s).2.licenses = s.licenses ∧
      (CorporateRouter.remove_trainee account_id trainee_id s).2.enrollments =
        s.enrollments ∧
      (CorporateRouter.remove_trainee account_id trainee_id s).2.users = s.users ∧
      (CorporateRouter.remove_trainee account_id trainee_id s).2.trainees =
        (deleteFirst (fun x => x.id == trainee_id) s.trainees).1 := by
  have hown2 : (t.corporate_account_id == account_id) = true := by simp [hown]
  simp [CorporateRouter.remove_trainee, hft, hown2, CorporateRepository.remove_trainee]

/-- Witness for the C10 theorem at a concrete state with one assignment and a
fully-assigned license: removal succeeds and leaves both untouched. -/
theorem remove_trainee_only_deletes_trainee_witness :
    (CorporateRouter.remove_trainee "A10" "T10" exC10State).1 = Except.ok "success" ∧
      (CorporateRouter.remove_trainee "A10" "T10" exC10State).2.assignments =
        exC10State.assignments ∧
      (CorporateRouter.remove_trainee "A10" "T10" exC10State).2.licenses =
        exC10State.licenses ∧
      (CorporateRouter.remove_trainee "A10" "T10" exC10State).2.enrollments =
        exC10State.enrollments ∧
      (CorporateRouter.remove_trainee "A10" "T10" exC10State).2.users =
        exC10State.users ∧
      (CorporateRouter.remove_trainee "A10" "T10" exC10State).2.trainees =
        (deleteFirst (fun x => x.id == "T10") exC10State.trainees).1 :=
  remove_trainee_only_deletes_trainee "A10" "T10" exC10State exC10Trainee
    (by decide) rfl

/-- C6, counterexample: the caller's corporate account is "A6" while the
license referenced by the existing assignment belongs to account "B6"; the
claim requires a client-visible NotFound with no state change, but
`unassign_trainee` succeeds, removes the assignment and decrements the foreign
license's seat count. -/
theorem unassign_foreign_license_counterexample :
    exC6License.corporate_account_id ≠ "A6" ∧
      (CorporateRouter.unassign_trainee "A6"
          { trainee_id := "T6", license_id := "L6" } exC6State).1 =
        Except.ok "success" ∧
      (CorporateRouter.unassign_trainee "A6"
          { trainee_id := "T6", license_id := "L6" } exC6State).2.assignments = [] ∧
      CorporateRepository.find_license_by_id
          (CorporateRouter.unassign_trainee "A6"
            { trainee_id := "T6", license_id := "L6" } exC6State).2 "L6" =
        some { exC6License with assigned_seats := 0 } := by
  decide

/-- C3 (amended): `assign_trainee` discards the boolean returned by
`incrementAssignedSeats` (corporate.py line 510): once the TraineeAssignment
record has been created, the operation reports success and the record is
retained in the store no matter what the increment returned — in particular,
when it returns false the just-created assignment is NOT deleted and no
NoSeatsAvailable error is raised.  `env` is the database interference at the
`await` between `create_assignment` and `increment_assigned_seats`
(constrained only to leave the assignments collection alone); the conclusion
holds for every `env`, i.e. independently of the increment's outcome. -/
theorem assign_keeps_assignment_regardless_of_increment
    (env : AppState → AppState) (henv : ∀ t, (env t).assignments = t.assignments)
    (newAssignmentId account_id tid lid : String) (s : AppState)
    (lic : LicenseDoc) (trainee : TraineeDoc)
    (hfl : CorporateRepository.find_license_by_id s lid = some lic)
    (hown : lic.corporate_account_id = account_id)
    (hseat : lic.assigned_seats < lic.total_seats)
    (htr : CorporateRepository.find_trainee_by_id s tid = some trainee)
    (htown : trainee.corporate_account_id = account_id)
    (hasg : CorporateRepository.find_assignment s tid lid = none) :
    (CorporateRouter.assign_trainee env newAssignmentId true account_id
        { trainee_id := tid, license_id := lid } s).1 = Except.ok "success" ∧
      ({ id := newAssignmentId, license_id := lid, trainee_id := tid,
         status := "ACTIVE" } : AssignmentDoc) ∈
        (CorporateRouter.assign_trainee env newAssignmentId true account_id
          { trainee_id := tid, license_id := lid } s).2.assignments := by
  have hown2 : (lic.corporate_account_id == account_id) = true := by simp [hown]
  have htown2 : (trainee.corporate_account_id == account_id) = true := by simp [htown]
  have hseat2 : decide (lic.total_seats ≤ lic.assigned_seats) = false := by
    simp only [decide_eq_false_iff_not]
    omega
  constructor
  · simp [CorporateRouter.assign_trainee, hfl, hown2, hseat2, htr, htown2, hasg,
      CorporateRepository.create_assignment, create_enrollment_unexpected_kwargs_call]
  · simp only [CorporateRouter.assign_trainee, hfl, hown2, hseat2, htr, htown2, hasg,
      CorporateRepository.create_assignment, create_enrollment_unexpected_kwargs_call,
      CorporateRepository.increment_assigned_seats, Bool.false_eq_true, if_false,
      if_true]
    rw [henv]
    simp

/-- Witness for the C3 theorem: the concrete interference deletes the license
documents while the assign task is suspended, so the increment returns false,
yet the call answers success and the assignment is in the store. -/
theorem assign_keeps_assignment_regardless_of_increment_witness :
    (CorporateRouter.assign_trainee exC3Interference "AS3" true "A3"
        { trainee_id := "T3", license_id := "L3" } exC3State).1 =
      Except.ok "success" ∧
      ({ id := "AS3", license_id := "L3", trainee_id := "T3",
         status := "ACTIVE" } : AssignmentDoc) ∈
        (CorporateRouter.assign_trainee exC3Interference "AS3" true "A3"
          { trainee_id := "T3", license_id := "L3" } exC3State).2.assignments :=
  assign_keeps_assignment_regardless_of_increment exC3Interference (fun t => rfl)
    "AS3" "A3" "T3" "L3" exC3State exC3License exC3Trainee (by decide) rfl
    (by decide) (by decide) rfl (by decide)

/-- C3, counterexample: a run in which `incrementAssignedSeats` returns false
after the TraineeAssignment record was created (the license vanished from the
shared database while the task was suspended between the two repository
calls).  The claim requires the just-created assignment to be deleted and the
operation to fail with NoSeatsAvailable; instead the code keeps the
assignment and answers success — it never even reads the increment's result. -/
theorem assign_no_rollback_counterexample :
    (CorporateRepository.increment_assigned_seats
        (exC3Interference
          (CorporateRepository.create_assignment exC3State
            { id := "AS3", license_id := "L3", trainee_id := "T3",
              status := "ACTIVE" } true).1) "L3").2 = false ∧
      (CorporateRouter.assign_trainee exC3Interference "AS3" true "A3"
        { trainee_id := "T3", license_id := "L3" } exC3State).1 =
        Except.ok "success" ∧
      ({ id := "AS3", license_id := "L3", trainee_id := "T3",
         status := "ACTIVE" } : AssignmentDoc) ∈
        (CorporateRouter.assign_trainee exC3Interference "AS3" true "A3"
          { trainee_id := "T3", license_id := "L3" } exC3State).2.assignments ∧
      (CorporateRouter.assign_trainee exC3Interference "AS3" true "A3"
        { trainee_id := "T3", license_id := "L3" } exC3State).1 ≠
        Except.error (ApiError.http 400 "No seats available") := by
  decide

/-- C6 (amended): `unassign_trainee` checks only that the assignment exists —
it never verifies that the referenced license belongs to the caller's
corporate account.  For ANY caller account (owner or not), when the
assignment exists the call succeeds: the assignment is removed and the
license's seat count goes through the guarded decrement. -/
theorem unassign_ignores_license_ownership (account_id : String)
    (request : CorporateRouter.UnassignTraineeRequest) (s : AppState)
    (a : AssignmentDoc)
    (hfa : CorporateRepository.find_assignment s request.trainee_id
        request.license_id = some a) :
    (CorporateRouter.unassign_trainee account_id request s).1 = Except.ok "success" ∧
      (CorporateRouter.unassign_trainee account_id request s).2.assignments =
        (CorporateRepository.remove_assignment s request.trainee_id
          request.license_id).1.assignments ∧
      (CorporateRouter.unassign_trainee account_id request s).2.licenses =
        (CorporateRepository.decrement_assigned_seats s
          request.license_id).1.licenses := by
  have hfa2 : s.assignments.find?
      (fun x => x.trainee_id == request.trainee_id &&
        x.license_id == request.license_id) = some a := hfa
  obtain ⟨l1, l2, hdecomp, hpre, hpb⟩ :=
    find?_eq_some_decomp _ s.assignments a hfa2
  have hdel : deleteFirst
      (fun x => x.trainee_id == request.trainee_id &&
        x.license_id == request.license_id) s.assignments = (l1 ++ l2, true) := by
    rw [hdecomp]
    exact deleteFirst_append_unmatched _ a hpb l1 l2 hpre
  simp only [CorporateRouter.unassign_trainee, hfa,
    CorporateRepository.remove_assignment, hdel, if_true]
  refine ⟨?_, ?_, ?_⟩
  · split
    · split <;> rfl
    · rfl
  · split
    · split <;> simp [EnrollmentRepository.update_enrollment_status,
        CorporateRepository.decrement_assigned_seats, hdel]
    · simp [CorporateRepository.decrement_assigned_seats, hdel]
  · split
    · split <;> simp [EnrollmentRepository.update_enrollment_status,
        CorporateRepository.decrement_assigned_seats]
    · simp [CorporateRepository.decrement_assigned_seats]

/-- Witness for the C6 theorem at the concrete cross-tenant state (caller
account "A6", license owned by "B6"). -/
theorem unassign_ignores_license_ownership_witness :
    (CorporateRouter.unassign_trainee "A6"
        { trainee_id := "T6", license_id := "L6" } exC6State).1 =
      Except.ok "success" ∧
      (CorporateRouter.unassign_trainee "A6"
          { trainee_id := "T6", license_id := "L6" } exC6State).2.assignments =
        (CorporateRepository.remove_assignment exC6State "T6" "L6").1.assignments ∧
      (CorporateRouter.unassign_trainee "A6"
          { trainee_id := "T6", license_id := "L6" } exC6State).2.licenses =
        (CorporateRepository.decrement_assigned_seats exC6State "L6").1.licenses :=
  unassign_ignores_license_ownership "A6" { trainee_id := "T6", license_id := "L6" }
    exC6State exC6Assignment (by decide)

/-- C7 (the code, evaluated at the failing input — indeed at every input):
`register_corporate_account` always raises `AttributeError` while evaluating
`UserRole.CORPORATE_STAFF` (corporate.py line 108; the member is absent from
`UserRole` and `except ValueError` does not catch the error), before
`create_user` runs and before any database write.  The admin user is
therefore never created, the state is unchanged, and the compensating-delete
/ RegistrationFailed branch (corporate.py lines 130-134) that the claim
describes is unreachable dead code in this snapshot. -/
theorem register_always_attribute_error (newUserId newAccountId : String)
    (accountInsertOk : Bool) (request : CorporateRouter.RegisterCorporateRequest)
    (s : AppState) :
    (CorporateRouter.register_corporate_account newUserId newAccountId
        accountInsertOk request s).1 =
      Except.error (ApiError.attributeError
        "type object UserRole has no attribute CORPORATE_STAFF") ∧
      (CorporateRouter.register_corporate_account newUserId newAccountId
        accountInsertOk request s).2 = s :=
  ⟨rfl, rfl⟩

/-- C8: assign followed by unassign of the same (trainee, license) pair is a
round trip on seat state.  From any well-formed state in which `assign_trainee`
succeeds (license found and owned, a free seat, non-negative seat count,
trainee found and owned, no existing assignment; enrollment ids unique and at
most one enrollment per (user id, offering id) key — the repository's unique
indexes), the subsequent `unassign_trainee` succeeds, the licenses collection
— hence `assigned_seats` — returns exactly to its pre-assign value, the
assignments collection is restored, and every Enrollment matching (trainee's
user id, license's offering id) ends with status DROPPED, its other fields
kept. -/
theorem assign_unassign_round_trip
    (newAssignmentId account_id tid lid : String) (s : AppState)
    (lic : LicenseDoc) (trainee : TraineeDoc)
    (hfl : CorporateRepository.find_license_by_id s lid = some lic)
    (hown : lic.corporate_account_id = account_id)
    (hseat : lic.assigned_seats < lic.total_seats)
    (h0 : 0 ≤ lic.assigned_seats)
    (htr : CorporateRepository.find_trainee_by_id s tid = some trainee)
    (htown : trainee.corporate_account_id = account_id)
    (hasg : CorporateRepository.find_assignment s tid lid = none)
    (hids : s.enrollments.Pairwise (fun e1 e2 => e1.id ≠ e2.id))
    (hkey : ∀ e1 ∈ s.enrollments, ∀ e2 ∈ s.enrollments,
      e1.user_id = trainee.user_id → e1.schedule_id = lic.schedule_id →
      e2.user_id = trainee.user_id → e2.schedule_id = lic.schedule_id → e1 = e2) :
    (CorporateRouter.assign_trainee (fun t => t) newAssignmentId true account_id
        { trainee_id := tid, license_id := lid } s).1 = Except.ok "success" ∧
      (CorporateRouter.unassign_trainee account_id
        { trainee_id := tid, license_id := lid }
        (CorporateRouter.assign_trainee (fun t => t) newAssignmentId true account_id
          { trainee_id := tid, license_id := lid } s).2).1 = Except.ok "success" ∧
      (CorporateRouter.unassign_trainee account_id
        { trainee_id := tid, license_id := lid }
        (CorporateRouter.assign_trainee (fun t => t) newAssignmentId true account_id
          { trainee_id := tid, license_id := lid } s).2).2.licenses = s.licenses ∧
      (CorporateRouter.unassign_trainee account_id
        { trainee_id := tid, license_id := lid }
        (CorporateRouter.assign_trainee (fun t => t) newAssignmentId true account_id
          { trainee_id := tid, license_id := lid } s).2).2.assignments =
        s.assignments ∧
      ∀ e ∈ s.enrollments, e.user_id = trainee.user_id →
        e.schedule_id = lic.schedule_id →
        ({ e with status := "DROPPED" } : EnrollmentDoc) ∈
          (CorporateRouter.unassign_trainee account_id
            { trainee_id := tid, license_id := lid }
            (CorporateRouter.assign_trainee (fun t => t) newAssignmentId true
              account_id { trainee_id := tid, license_id := lid } s).2).2.enrollments := by
  have hown2 : (lic.corporate_account_id == account_id) = true := by simp [hown]
  have htown2 : (trainee.corporate_account_id == account_id) = true := by simp [htown]
  have hseat2 : decide (lic.total_seats ≤ lic.assigned_seats) = false := by
    simp only [decide_eq_false_iff_not]
    omega
  have htr2 : s.trainees.find? (fun t => t.id == tid) = some trainee := htr
  -- decompose the licenses collection at the found license
  have hfl2 : s.licenses.find? (fun l => l.id == lid) = some lic := hfl
  obtain ⟨L1, L2, hdL, hpreL, hpbL⟩ :=
    find?_eq_some_decomp (fun l => l.id == lid) s.licenses lic hfl2
  have hupdL : updateFirst (fun l => l.id == lid)
      (fun l => { l with assigned_seats := l.assigned_seats + 1 }) s.licenses =
      (L1 ++ { lic with assigned_seats := lic.assigned_seats + 1 } :: L2, true) := by
    rw [hdL]
    exact updateFirst_append_unmatched _ _ lic hpbL L1 L2 hpreL
  -- the state after the successful assign
  have hA1 : (CorporateRouter.assign_trainee (fun t => t) newAssignmentId true
      account_id { trainee_id := tid, license_id := lid } s).1 =
      Except.ok "success" := by
    simp only [CorporateRouter.assign_trainee, hfl, hown2, hseat2,
      Bool.false_eq_true, if_false, if_true, htr, htown2, hasg,
      CorporateRepository.create_assignment, CorporateRepository.increment_assigned_seats,
      create_enrollment_unexpected_kwargs_call, hupdL]
  have hA2 : (CorporateRouter.assign_trainee (fun t => t) newAssignmentId true
      account_id { trainee_id := tid, license_id := lid } s).2 =
      { s with assignments := s.assignments ++ [(⟨newAssignmentId, lid, tid, "ACTIVE"⟩ : AssignmentDoc)], licenses := L1 ++ { lic with assigned_seats := lic.assigned_seats + 1 } :: L2 } := by
    simp only [CorporateRouter.assign_trainee, hfl, hown2, hseat2,
      Bool.false_eq_true, if_false, if_true, htr, htown2, hasg,
      CorporateRepository.create_assignment, CorporateRepository.increment_assigned_seats,
      create_enrollment_unexpected_kwargs_call, hupdL]
  rw [hA2]
  refine ⟨hA1, ?_⟩
  -- the assignment just created is found and removed again
  have hpreA : ∀ x ∈ s.assignments,
      (x.trainee_id == tid && x.license_id == lid) = false := by
    intro x hx
    have := List.find?_eq_none.mp hasg x hx
    simpa using this
  have hpbA : ((⟨newAssignmentId, lid, tid, "ACTIVE"⟩ : AssignmentDoc).trainee_id == tid && (⟨newAssignmentId, lid, tid, "ACTIVE"⟩ : AssignmentDoc).license_id == lid) = true := by
    simp
  have hfindA : (s.assignments ++ [(⟨newAssignmentId, lid, tid, "ACTIVE"⟩ : AssignmentDoc)]).find? (fun x => x.trainee_id == tid && x.license_id == lid) = some (⟨newAssignmentId, lid, tid, "ACTIVE"⟩ : AssignmentDoc) :=
    find?_append_unmatched (fun x => x.trainee_id == tid && x.license_id == lid)
      (⟨newAssignmentId, lid, tid, "ACTIVE"⟩ : AssignmentDoc) hpbA s.assignments [] hpreA
  have hdelA : deleteFirst (fun x => x.trainee_id == tid && x.license_id == lid)
      (s.assignments ++ [(⟨newAssignmentId, lid, tid, "ACTIVE"⟩ : AssignmentDoc)]) =
      (s.assignments ++ [], true) :=
    deleteFirst_append_unmatched (fun x => x.trainee_id == tid && x.license_id == lid)
      (⟨newAssignmentId, lid, tid, "ACTIVE"⟩ : AssignmentDoc) hpbA s.assignments [] hpreA
  -- the guarded decrement restores the license document exactly
  have hpreQ : ∀ x ∈ L1,
      (x.id == lid && decide (0 < x.assigned_seats)) = false := by
    intro x hx
    simp [hpreL x hx]
  have hqb : (({ lic with assigned_seats := lic.assigned_seats + 1 } : LicenseDoc).id == lid && decide (0 < ({ lic with assigned_seats := lic.assigned_seats + 1 } : LicenseDoc).assigned_seats)) = true := by
    rw [Bool.and_eq_true]
    refine ⟨hpbL, ?_⟩
    simp only [decide_eq_true_eq]
    omega
  have hrestore : ({ lic with assigned_seats := lic.assigned_seats + 1 - 1 } : LicenseDoc) = lic := by
    have harith : lic.assigned_seats + 1 - 1 = lic.assigned_seats := by omega
    rw [harith]
  have hupdQ : updateFirst
      (fun l => l.id == lid && decide (0 < l.assigned_seats))
      (fun l => { l with assigned_seats := l.assigned_seats - 1 })
      (L1 ++ { lic with assigned_seats := lic.assigned_seats + 1 } :: L2) =
      (L1 ++ lic :: L2, true) := by
    rw [updateFirst_append_unmatched
      (fun l => l.id == lid && decide (0 < l.assigned_seats))
      (fun l => { l with assigned_seats := l.assigned_seats - 1 })
      ({ lic with assigned_seats := lic.assigned_seats + 1 } : LicenseDoc)
      hqb L1 L2 hpreQ]
    simp only []
    rw [hrestore]
  have hflmid : (L1 ++ lic :: L2).find? (fun l => l.id == lid) = some lic :=
    find?_append_unmatched _ lic hpbL L1 L2 hpreL
  -- compute the unassign call, splitting on the enrollment lookup
  cases hE : s.enrollments.find?
      (fun e => e.user_id == trainee.user_id && e.schedule_id == lic.schedule_id) with
  | none =>
    have hU1 : (CorporateRouter.unassign_trainee account_id
        { trainee_id := tid, license_id := lid }
        { s with assignments := s.assignments ++ [(⟨newAssignmentId, lid, tid, "ACTIVE"⟩ : AssignmentDoc)], licenses := L1 ++ { lic with assigned_seats := lic.assigned_seats + 1 } :: L2 }).1 =
        Except.ok "success" := by
      simp only [CorporateRouter.unassign_trainee, CorporateRepository.find_assignment,
        hfindA, CorporateRepository.remove_assignment, hdelA, if_true,
        CorporateRepository.decrement_assigned_seats, hupdQ,
        CorporateRepository.find_license_by_id, CorporateRepository.find_trainee_by_id,
        hflmid, htr2, hE]
    have hU2 : (CorporateRouter.unassign_trainee account_id
        { trainee_id := tid, license_id := lid }
        { s with assignments := s.assignments ++ [(⟨newAssignmentId, lid, tid, "ACTIVE"⟩ : AssignmentDoc)], licenses := L1 ++ { lic with assigned_seats := lic.assigned_seats + 1 } :: L2 }).2 =
        { s with assignments := s.assignments ++ [], licenses := L1 ++ lic :: L2 } := by
      simp only [CorporateRouter.unassign_trainee, CorporateRepository.find_assignment,
        hfindA, CorporateRepository.remove_assignment, hdelA, if_true,
        CorporateRepository.decrement_assigned_seats, hupdQ,
        CorporateRepository.find_license_by_id, CorporateRepository.find_trainee_by_id,
        hflmid, htr2, hE]
    rw [hU2]
    refine ⟨hU1, by simp [hdL], by simp, ?_⟩
    intro e he hu hsch
    have := List.find?_eq_none.mp hE e he
    simp [hu, hsch] at this
  | some e0 =>
    have hE2 : s.enrollments.find?
        (fun e => e.user_id == trainee.user_id && e.schedule_id == lic.schedule_id) =
        some e0 := hE
    obtain ⟨E1, E2, hdE, hpreE, hpbE⟩ :=
      find?_eq_some_decomp _ s.enrollments e0 hE2
    have hpreI : ∀ x ∈ E1, (x.id == e0.id) = false := by
      intro x hx
      have hpw := List.pairwise_append.mp (hdE ▸ hids)
      have := hpw.2.2 x hx e0 (List.mem_cons_self _ _)
      simpa using this
    have hupdE : updateFirst (fun e => e.id == e0.id)
        (fun e => { e with status := "DROPPED" }) s.enrollments =
        (E1 ++ { e0 with status := "DROPPED" } :: E2, true) := by
      rw [hdE]
      exact updateFirst_append_unmatched _ _ e0 (by simp) E1 E2 hpreI
    have hU1 : (CorporateRouter.unassign_trainee account_id
        { trainee_id := tid, license_id := lid }
        { s with assignments := s.assignments ++ [(⟨newAssignmentId, lid, tid, "ACTIVE"⟩ : AssignmentDoc)], licenses := L1 ++ { lic with assigned_seats := lic.assigned_seats + 1 } :: L2 }).1 =
        Except.ok "success" := by
      simp only [CorporateRouter.unassign_trainee, CorporateRepository.find_assignment,
        hfindA, CorporateRepository.remove_assignment, hdelA, if_true,
        CorporateRepository.decrement_assigned_seats, hupdQ,
        CorporateRepository.find_license_by_id, CorporateRepository.find_trainee_by_id,
        hflmid, htr2, hE, EnrollmentRepository.update_enrollment_status, hupdE]
    have hU2 : (CorporateRouter.unassign_trainee account_id
        { trainee_id := tid, license_id := lid }
        { s with assignments := s.assignments ++ [(⟨newAssignmentId, lid, tid, "ACTIVE"⟩ : AssignmentDoc)], licenses := L1 ++ { lic with assigned_seats := lic.assigned_seats + 1 } :: L2 }).2 =
        { s with assignments := s.assignments ++ [], licenses := L1 ++ lic :: L2, enrollments := E1 ++ { e0 with status := "DROPPED" } :: E2 } := by
      simp only [CorporateRouter.unassign_trainee, CorporateRepository.find_assignment,
        hfindA, CorporateRepository.remove_assignment, hdelA, if_true,
        CorporateRepository.decrement_assigned_seats, hupdQ,
        CorporateRepository.find_license_by_id, CorporateRepository.find_trainee_by_id,
        hflmid, htr2, hE, EnrollmentRepository.update_enrollment_status, hupdE]
    rw [hU2]
    refine ⟨hU1, by simp [hdL], by simp, ?_⟩
    intro e he hu hsch
    have he0mem : e0 ∈ s.enrollments := by
      rw [hdE]
      exact List.mem_append_right _ (List.mem_cons_self _ _)
    have hpb2 := hpbE
    simp only [Bool.and_eq_true, beq_iff_eq] at hpb2
    have hee0 : e = e0 := hkey e he e0 he0mem hu hsch hpb2.1 hpb2.2
    rw [hee0]
    exact List.mem_append_right _ (List.mem_cons_self _ _)

/-- Witness for the C8 theorem at a concrete state: account "A8" owns license
"L8" (2 seats, 0 assigned) and trainee "T8"; one enrollment matches
(U8, S8).  Assign then unassign restores licenses and assignments, and the
matching enrollment is DROPPED. -/
theorem assign_unassign_round_trip_witness :
    (CorporateRouter.assign_trainee (fun t => t) "AS8" true "A8"
        { trainee_id := "T8", license_id := "L8" } exC8State).1 =
      Except.ok "success" ∧
      (CorporateRouter.unassign_trainee "A8"
        { trainee_id := "T8", license_id := "L8" }
        (CorporateRouter.assign_trainee (fun t => t) "AS8" true "A8"
          { trainee_id := "T8", license_id := "L8" } exC8State).2).1 =
        Except.ok "success" ∧
      (CorporateRouter.unassign_trainee "A8"
        { trainee_id := "T8", license_id := "L8" }
        (CorporateRouter.assign_trainee (fun t => t) "AS8" true "A8"
          { trainee_id := "T8", license_id := "L8" } exC8State).2).2.licenses =
        exC8State.licenses ∧
      (CorporateRouter.unassign_trainee "A8"
        { trainee_id := "T8", license_id := "L8" }
        (CorporateRouter.assign_trainee (fun t => t) "AS8" true "A8"
          { trainee_id := "T8", license_id := "L8" } exC8State).2).2.assignments =
        exC8State.assignments ∧
      ∀ e ∈ exC8State.enrollments, e.user_id = exC8Trainee.user_id →
        e.schedule_id = exC8License.schedule_id →
        ({ e with status := "DROPPED" } : EnrollmentDoc) ∈
          (CorporateRouter.unassign_trainee "A8"
            { trainee_id := "T8", license_id := "L8" }
            (CorporateRouter.assign_trainee (fun t => t) "AS8" true "A8"
              { trainee_id := "T8", license_id := "L8" } exC8State).2).2.enrollments :=
  assign_unassign_round_trip "AS8" "A8" "T8" "L8" exC8State exC8License exC8Trainee
    (by decide) rfl (by decide) (by decide) (by decide) rfl (by decide)
    (by simp [exC8State, emptyState]) (by decide)
